import Mathlib

/-!
Verification of the interactive front-end logic of the rainbow_taxi
repository: the `TestimonialsSlider` carousel (src/js/components.js),
the `ScrollReveal` one-shot reveal component (src/js/components.js),
the `ScrollAnimationController` viewport predicate (src/js/animations.js)
and the `IntersectionAnimationController` fallback path
(src/js/animations.js), embedded shallowly in Lean.
-/

namespace RainbowTaxi

/-- A JavaScript number as the slider code produces it: an integral value
or NaN (the only non-integral value the slider arithmetic can yield,
via `x % 0`). -/
inductive JSNum where
  | int : Int → JSNum
  | nan : JSNum
deriving DecidableEq, Repr

/-- JS addition on such values; NaN propagates. -/
def JSNum.add : JSNum → JSNum → JSNum
  | .int a, .int b => .int (a + b)
  | _, _ => .nan

/-- JS subtraction on such values; NaN propagates. -/
def JSNum.sub : JSNum → JSNum → JSNum
  | .int a, .int b => .int (a - b)
  | _, _ => .nan

/-- JS multiplication on such values; NaN propagates. -/
def JSNum.mul : JSNum → JSNum → JSNum
  | .int a, .int b => .int (a * b)
  | _, _ => .nan

/-- JS unary minus. -/
def JSNum.neg : JSNum → JSNum
  | .int a => .int (-a)
  | .nan => .nan

/-- The JS `%` operator on integral values: truncated remainder (sign of
the dividend); `x % 0` is NaN, and NaN propagates. -/
def JSNum.mod : JSNum → JSNum → JSNum
  | .int a, .int b => if b = 0 then .nan else .int (Int.tmod a b)
  | _, _ => .nan

/-! ## TestimonialsSlider (src/js/components.js lines 112-220)

State: `currentSlide` (the JS number field), `totalSlides` (the length of
the discovered card list, fixed at construction), `autoPlayInterval` (the
timer handle, `null` or an id returned by `setInterval`), and the two
pieces of rendered state written by `updateSlider` / `updateDots`:
the track's translateX percentage and which dot carries the active class
(dot `i` is active iff `i === currentSlide`). -/

structure SliderState where
  currentSlide : JSNum
  totalSlides : Nat
  autoPlayInterval : Option Nat
  trackOffset : JSNum
  activeDot : JSNum
deriving DecidableEq, Repr

/-- `updateSlider()`: `translateX = -currentSlide * 100` percent. -/
def updateSlider (s : SliderState) : SliderState :=
  { s with trackOffset := JSNum.mul (JSNum.neg s.currentSlide) (JSNum.int 100) }

/-- `updateDots()`: dot `i` gets the active class iff `i === currentSlide`;
we record the compared value. -/
def updateDots (s : SliderState) : SliderState :=
  { s with activeDot := s.currentSlide }

/-- `goToSlide(index)`: `this.currentSlide = index` (no normalization),
then re-render. -/
def goToSlide (s : SliderState) (index : Int) : SliderState :=
  updateDots (updateSlider { s with currentSlide := JSNum.int index })

/-- `nextSlide()`: `this.currentSlide = (this.currentSlide + 1) % this.totalSlides`,
then re-render. -/
def nextSlide (s : SliderState) : SliderState :=
  updateDots (updateSlider { s with
    currentSlide :=
      JSNum.mod (JSNum.add s.currentSlide (JSNum.int 1))
        (JSNum.int (s.totalSlides : Int)) })

/-- `prevSlide()`: `this.currentSlide = (this.currentSlide - 1 + this.totalSlides) % this.totalSlides`,
then re-render. -/
def prevSlide (s : SliderState) : SliderState :=
  updateDots (updateSlider { s with
    currentSlide :=
      JSNum.mod
        (JSNum.add (JSNum.sub s.currentSlide (JSNum.int 1))
          (JSNum.int (s.totalSlides : Int)))
        (JSNum.int (s.totalSlides : Int)) })

/-- Which navigation method a `handleSwipe` call dispatches to. -/
inductive NavCall where
  | nextCall
  | prevCall
deriving DecidableEq, Repr

/-- `handleSwipe(startX, endX)`: `diff = startX - endX`; if `|diff| > 50`
call `nextSlide()` when `diff > 0` else `prevSlide()`; otherwise nothing.
Returns the new state together with the list of navigation calls made. -/
def handleSwipe (s : SliderState) (startX endX : Int) : SliderState × List NavCall :=
  let diff := startX - endX
  if 50 < |diff| then
    if 0 < diff then (nextSlide s, [NavCall.nextCall])
    else (prevSlide s, [NavCall.prevCall])
  else (s, [])

/-! ## Timer environment for autoplay

`setInterval` hands out fresh positive ids and arms a timer;
`clearInterval` disarms the timer with the given id. Browser interval ids
are positive, so `autoPlayInterval`'s JS truthiness test is exactly the
`Option` match. -/

structure TimerWorld where
  nextId : Nat
  active : List Nat
deriving DecidableEq, Repr

def TimerWorld.init : TimerWorld := { nextId := 1, active := [] }

/-- `setInterval(cb, delay)`: arms a fresh timer, returns its id. -/
def setIntervalW (w : TimerWorld) : Nat × TimerWorld :=
  (w.nextId, { nextId := w.nextId + 1, active := w.nextId :: w.active })

/-- `clearInterval(id)`: disarms the timer with that id. -/
def clearIntervalW (w : TimerWorld) (id : Nat) : TimerWorld :=
  { w with active := w.active.erase id }

/-- `stopAutoPlay()`: `if (this.autoPlayInterval) { clearInterval(...); this.autoPlayInterval = null; }`. -/
def stopAutoPlay (s : SliderState) (w : TimerWorld) : SliderState × TimerWorld :=
  match s.autoPlayInterval with
  | some id => ({ s with autoPlayInterval := none }, clearIntervalW w id)
  | none => (s, w)

/-- `startAutoPlay()`: `this.stopAutoPlay(); this.autoPlayInterval = setInterval(...)`. -/
def startAutoPlay (s : SliderState) (w : TimerWorld) : SliderState × TimerWorld :=
  let sw := stopAutoPlay s w
  let idw := setIntervalW sw.2
  ({ sw.1 with autoPlayInterval := some idw.1 }, idw.2)

/-- `init()`: `if (!this.track || this.totalSlides === 0) return;` then
binds events and starts autoplay. We record whether the guard let
initialization proceed. -/
def sliderInitProceeds (hasTrack : Bool) (totalSlides : Nat) : Bool :=
  hasTrack && decide (totalSlides ≠ 0)

/-- The operations an event (click, touch, hover, timer tick) can invoke
on a constructed slider. -/
inductive SliderOp where
  | next
  | prev
  | goTo (i : Int)
  | swipe (startX endX : Int)
  | start
  | stop
deriving DecidableEq, Repr

/-- One event dispatch against the slider plus its timer environment. -/
def sliderStep (c : SliderState × TimerWorld) : SliderOp → SliderState × TimerWorld
  | .next => (nextSlide c.1, c.2)
  | .prev => (prevSlide c.1, c.2)
  | .goTo i => (goToSlide c.1 i, c.2)
  | .swipe a b => ((handleSwipe c.1 a b).1, c.2)
  | .start => startAutoPlay c.1 c.2
  | .stop => stopAutoPlay c.1 c.2

/-- Run a finite sequence of event dispatches. -/
def sliderRun (c : SliderState × TimerWorld) (ops : List SliderOp) : SliderState × TimerWorld :=
  ops.foldl sliderStep c

/-- The slider as constructed: `currentSlide = 0`, no autoplay timer,
nothing rendered yet. -/
def initialSlider (n : Nat) : SliderState :=
  { currentSlide := JSNum.int 0
    totalSlides := n
    autoPlayInterval := none
    trackOffset := JSNum.int 0
    activeDot := JSNum.int 0 }

/-! ## ScrollReveal (src/js/components.js lines 540-567)

`checkElements()` walks the watched elements and adds the `revealed`
class to any element currently in the viewport; the class is never
removed, and `classList.add` on an element that already has the class is
a no-op. -/

/-- Modelled from the spec: the `isInViewport(element, offset)` helper of
src/js/utils.js (imported by components.js but absent from the provided
sources); section 4.2 words its predicate as
`elementTopY < viewportHeight - thresholdPixels`. -/
def isInViewport (top viewportHeight offset : Int) : Bool :=
  decide (top < viewportHeight - offset)

/-- A watched `.reveal` element: its current bounding-box top and whether
its class list carries `revealed`. -/
structure RevealElem where
  top : Int
  revealed : Bool
deriving DecidableEq, Repr

/-- The per-element body of `ScrollReveal.checkElements`: if the element
is in the viewport (50 px offset), add the `revealed` class. -/
def scrollRevealCheckOne (viewportHeight : Int) (e : RevealElem) : RevealElem :=
  if isInViewport e.top viewportHeight 50 then { e with revealed := true } else e

/-- `ScrollReveal.checkElements()`: one pass over all watched elements. -/
def scrollRevealCheck (viewportHeight : Int) (elems : List RevealElem) : List RevealElem :=
  elems.map (scrollRevealCheckOne viewportHeight)

/-! ## ScrollAnimationController (src/js/animations.js lines 218-285)

`threshold = 0.1`; `isInViewport(element)` tests
`rect.top >= 0 && rect.top <= windowHeight * (1 - this.threshold)`;
`checkElements()` calls `animateElement` on every element passing the
test. Coordinates are modelled as rationals. -/

/-- `this.threshold = 0.1`. -/
def aosThreshold : ℚ := 1 / 10

/-- `ScrollAnimationController.isInViewport`: the source predicate, with
a NON-strict upper bound. -/
def aosIsInViewport (top windowHeight : ℚ) : Bool :=
  decide (0 ≤ top) && decide (top ≤ windowHeight * (1 - aosThreshold))

/-- The visibility predicate as the specification words it: lower bound
`>= 0` and STRICT upper bound `< viewportHeight * (1 - threshold)`. -/
def specViewportPred (top windowHeight : ℚ) : Prop :=
  0 ≤ top ∧ top < windowHeight * (1 - aosThreshold)

/-- A `[data-aos]` element: bounding-box top and whether `animateElement`
has styled it. -/
structure AosElem where
  top : ℚ
  animated : Bool
deriving DecidableEq, Repr

/-- Per-element body of `ScrollAnimationController.checkElements`:
animate exactly the elements passing `isInViewport`; the Boolean records
whether `animateElement` was invoked this pass. -/
def aosCheckOne (windowHeight : ℚ) (e : AosElem) : AosElem × Bool :=
  if aosIsInViewport e.top windowHeight then ({ e with animated := true }, true)
  else (e, false)

/-- `ScrollAnimationController.checkElements()`: one pass. -/
def aosCheckElements (windowHeight : ℚ) (elems : List AosElem) : List (AosElem × Bool) :=
  elems.map (aosCheckOne windowHeight)

/-! ## IntersectionAnimationController (src/js/animations.js lines 471-530)

`init()`: if `IntersectionObserver` is not in `window`, run
`fallbackAnimation()` and return; otherwise hide and observe the
elements. `fallbackAnimation()` arms, for the element at index `i`, a
one-shot timer with delay `i * 200` ms whose callback sets
`opacity = 1` and `translateY(0)`. -/

/-- An animated card element: its inline opacity and translateY style. -/
structure IacElem where
  opacity : Int
  translateY : Int
deriving DecidableEq, Repr

/-- The `setTimeout` callback body of `fallbackAnimation`:
`opacity = '1'; transform = 'translateY(0)'`. -/
def iacReveal (e : IacElem) : IacElem :=
  { e with opacity := 1, translateY := 0 }

/-- `elements.forEach((element, index) => setTimeout(..., index * 200))`,
starting from index `i`: the armed timers as (delay, element state once
the callback has run) pairs. -/
def fallbackTimersFrom (i : Nat) : List IacElem → List (Nat × IacElem)
  | [] => []
  | e :: rest => (i * 200, iacReveal e) :: fallbackTimersFrom (i + 1) rest

/-- `IntersectionAnimationController.fallbackAnimation()`. -/
def fallbackAnimation (elems : List IacElem) : List (Nat × IacElem) :=
  fallbackTimersFrom 0 elems

/-- `observeElements()`: hide each element (`opacity 0`,
`translateY(30px)`) and hand it to the observer. -/
def iacObserveElements (elems : List IacElem) : List IacElem :=
  elems.map fun e => { e with opacity := 0, translateY := 30 }

/-- Result of `IntersectionAnimationController.init()`: either the
observer path (elements hidden and observed) or the fallback path (the
staggered timers armed by `fallbackAnimation`). -/
inductive IacInit where
  | observing (hidden : List IacElem)
  | fallback (timers : List (Nat × IacElem))
deriving DecidableEq, Repr

/-- `init()`: branch on availability of the `IntersectionObserver`
capability. -/
def iacInit (hasIntersectionObserver : Bool) (elems : List IacElem) : IacInit :=
  if hasIntersectionObserver then IacInit.observing (iacObserveElements elems)
  else IacInit.fallback (fallbackAnimation elems)

/-! ## Derived predicates -/

/-- `currentIndex` holds an integer in `[0, N-1]`. -/
def validIndex (s : SliderState) : Prop :=
  ∃ c : Int, s.currentSlide = JSNum.int c ∧ 0 ≤ c ∧ c < (s.totalSlides : Int)

/-- The timers armed in the environment are exactly the one recorded in
`autoPlayInterval` (so at most one). -/
def timerInvariant (c : SliderState × TimerWorld) : Prop :=
  c.2.active = c.1.autoPlayInterval.toList

/-! ## Helper lemmas -/

/-- The JS truncated remainder agrees with mathematical mod and is a
valid index when the dividend is nonnegative and the divisor positive. -/
lemma tmod_range {a n : Int} (ha : 0 ≤ a) (hn : 0 < n) :
    0 ≤ Int.tmod a n ∧ Int.tmod a n < n := by
  rw [Int.tmod_eq_emod ha (Int.le_of_lt hn)]
  exact ⟨Int.emod_nonneg a (ne_of_gt hn), Int.emod_lt_of_pos a hn⟩

lemma nextSlide_currentSlide (s : SliderState) :
    (nextSlide s).currentSlide =
      JSNum.mod (JSNum.add s.currentSlide (JSNum.int 1))
        (JSNum.int (s.totalSlides : Int)) := rfl

lemma prevSlide_currentSlide (s : SliderState) :
    (prevSlide s).currentSlide =
      JSNum.mod
        (JSNum.add (JSNum.sub s.currentSlide (JSNum.int 1))
          (JSNum.int (s.totalSlides : Int)))
        (JSNum.int (s.totalSlides : Int)) := rfl

lemma nextSlide_totalSlides (s : SliderState) :
    (nextSlide s).totalSlides = s.totalSlides := rfl

lemma prevSlide_totalSlides (s : SliderState) :
    (prevSlide s).totalSlides = s.totalSlides := rfl

lemma validIndex_nextSlide {s : SliderState} (h : validIndex s) :
    validIndex (nextSlide s) := by
  obtain ⟨c, hc, h0, hlt⟩ := h
  have hn : (0 : Int) < (s.totalSlides : Int) := lt_of_le_of_lt h0 hlt
  have hne : ((s.totalSlides : Int)) ≠ 0 := ne_of_gt hn
  refine ⟨Int.tmod (c + 1) (s.totalSlides : Int), ?_, (tmod_range (by omega) hn).1, ?_⟩
  · rw [nextSlide_currentSlide, hc]
    simp [JSNum.add, JSNum.mod, hne]
  · have ht : ((nextSlide s).totalSlides : Int) = (s.totalSlides : Int) := rfl
    rw [ht]
    exact (tmod_range (by omega) hn).2

lemma validIndex_prevSlide {s : SliderState} (h : validIndex s) :
    validIndex (prevSlide s) := by
  obtain ⟨c, hc, h0, hlt⟩ := h
  have hn : (0 : Int) < (s.totalSlides : Int) := lt_of_le_of_lt h0 hlt
  have hne : ((s.totalSlides : Int)) ≠ 0 := ne_of_gt hn
  refine ⟨Int.tmod (c - 1 + (s.totalSlides : Int)) (s.totalSlides : Int), ?_,
    (tmod_range (by omega) hn).1, ?_⟩
  · rw [prevSlide_currentSlide, hc]
    simp [JSNum.sub, JSNum.add, JSNum.mod, hne]
  · have ht : ((prevSlide s).totalSlides : Int) = (s.totalSlides : Int) := rfl
    rw [ht]
    exact (tmod_range (by omega) hn).2

/-- C1: for every slide count N ≥ 1 and every finite sequence of
`nextSlide`/`prevSlide` dispatches starting from a valid index, the
slider's `currentSlide` remains an integer in `[0, N-1]` after each
call (every prefix of a longer sequence is itself such a sequence). -/
theorem slider_nav_index_invariant (ops : List SliderOp)
    (hops : ∀ op ∈ ops, op = SliderOp.next ∨ op = SliderOp.prev) :
    ∀ (s : SliderState) (w : TimerWorld), validIndex s →
      validIndex (sliderRun (s, w) ops).1 := by
  induction ops with
  | nil => exact fun s w hs => hs
  | cons op rest ih =>
    intro s w hs
    have hrest : ∀ o ∈ rest, o = SliderOp.next ∨ o = SliderOp.prev :=
      fun o ho => hops o (List.mem_cons_of_mem op ho)
    rcases hops op (List.mem_cons_self op rest) with h | h <;> subst h
    · exact ih hrest (nextSlide s) w (validIndex_nextSlide hs)
    · exact ih hrest (prevSlide s) w (validIndex_prevSlide hs)

theorem slider_nav_index_invariant_witness :
    validIndex (sliderRun (initialSlider 3, TimerWorld.init)
      [SliderOp.next, SliderOp.next, SliderOp.prev, SliderOp.next]).1 :=
  slider_nav_index_invariant _ (by decide) (initialSlider 3) TimerWorld.init
    ⟨0, rfl, by decide, by decide⟩

/-- Modular arithmetic of one advance followed by one retreat (and the
reverse), on mathematical mod. -/
lemma emod_cycle {c n : Int} (h0 : 0 ≤ c) (hlt : c < n) :
    ((c + 1) % n - 1 + n) % n = c ∧ ((c - 1 + n) % n + 1) % n = c := by
  constructor
  · have e1 : (c + 1) % n - 1 + n = (c + 1) % n + (n - 1) := by ring
    have e2 : (c + 1) + (n - 1) = c + n * 1 := by ring
    rw [e1, Int.emod_add_emod, e2, Int.add_mul_emod_self_left,
      Int.emod_eq_of_lt h0 hlt]
  · have e3 : (c - 1 + n) + 1 = c + n * 1 := by ring
    rw [Int.emod_add_emod, e3, Int.add_mul_emod_self_left,
      Int.emod_eq_of_lt h0 hlt]

/-- C10: on a valid state, `nextSlide` then `prevSlide` restores the
original `currentSlide`, and so does `prevSlide` then `nextSlide`. -/
theorem next_prev_mutual_inverse (s : SliderState) (hs : validIndex s) :
    (prevSlide (nextSlide s)).currentSlide = s.currentSlide ∧
    (nextSlide (prevSlide s)).currentSlide = s.currentSlide := by
  obtain ⟨c, hc, h0, hlt⟩ := hs
  have hn : (0 : Int) < (s.totalSlides : Int) := lt_of_le_of_lt h0 hlt
  have hne : ((s.totalSlides : Int)) ≠ 0 := ne_of_gt hn
  have hnext : (nextSlide s).currentSlide =
      JSNum.int ((c + 1) % (s.totalSlides : Int)) := by
    rw [nextSlide_currentSlide, hc]
    simp only [JSNum.add, JSNum.mod, if_neg hne]
    rw [Int.tmod_eq_emod (by omega) (Int.le_of_lt hn)]
  have hprev : (prevSlide s).currentSlide =
      JSNum.int ((c - 1 + (s.totalSlides : Int)) % (s.totalSlides : Int)) := by
    rw [prevSlide_currentSlide, hc]
    simp only [JSNum.sub, JSNum.add, JSNum.mod, if_neg hne]
    rw [Int.tmod_eq_emod (by omega) (Int.le_of_lt hn)]
  constructor
  · have hm : 0 ≤ (c + 1) % (s.totalSlides : Int) := Int.emod_nonneg _ hne
    rw [prevSlide_currentSlide, hnext]
    have ht : (((nextSlide s).totalSlides : Int)) = (s.totalSlides : Int) := rfl
    rw [ht]
    simp only [JSNum.sub, JSNum.add, JSNum.mod, if_neg hne]
    rw [Int.tmod_eq_emod (by omega) (Int.le_of_lt hn), (emod_cycle h0 hlt).1, hc]
  · have hm : 0 ≤ (c - 1 + (s.totalSlides : Int)) % (s.totalSlides : Int) :=
      Int.emod_nonneg _ hne
    rw [nextSlide_currentSlide, hprev]
    have ht : (((prevSlide s).totalSlides : Int)) = (s.totalSlides : Int) := rfl
    rw [ht]
    simp only [JSNum.add, JSNum.mod, if_neg hne]
    rw [Int.tmod_eq_emod (by omega) (Int.le_of_lt hn), (emod_cycle h0 hlt).2, hc]

theorem next_prev_mutual_inverse_witness :
    (prevSlide (nextSlide (initialSlider 3))).currentSlide =
      (initialSlider 3).currentSlide ∧
    (nextSlide (prevSlide (initialSlider 3))).currentSlide =
      (initialSlider 3).currentSlide :=
  next_prev_mutual_inverse (initialSlider 3) ⟨0, rfl, by decide, by decide⟩

/-- C2 counterexample: `goToSlide(5)` on a 3-slide deck stores the raw
index 5, not `5 mod 3 = 2`, and the resulting index is not valid. -/
theorem goToSlide_no_modulo_cex :
    (goToSlide (initialSlider 3) 5).currentSlide = JSNum.int 5 ∧
    ¬ validIndex (goToSlide (initialSlider 3) 5) ∧
    (5 : Int) % 3 = 2 := by
  refine ⟨rfl, ?_, by decide⟩
  rintro ⟨c, hc, h0, hlt⟩
  have h5 : JSNum.int 5 = JSNum.int c := hc
  injection h5 with h5
  rw [← h5] at hlt
  exact absurd hlt (by decide)

/-- C2 amended: `goToSlide(i)` stores the raw index `i` into
`currentSlide` with no modulo normalization; when `i ≥ N` the stored
index is out of range. -/
theorem goToSlide_stores_raw_index (s : SliderState) (i : Int) :
    (goToSlide s i).currentSlide = JSNum.int i ∧
    ((s.totalSlides : Int) ≤ i → ¬ validIndex (goToSlide s i)) := by
  refine ⟨rfl, ?_⟩
  rintro hi ⟨c, hc, h0, hlt⟩
  have h5 : JSNum.int i = JSNum.int c := hc
  injection h5 with h5
  have hlt' : c < (s.totalSlides : Int) := hlt
  omega

theorem goToSlide_stores_raw_index_witness :
    (goToSlide (initialSlider 2) 7).currentSlide = JSNum.int 7 ∧
    ¬ validIndex (goToSlide (initialSlider 2) 7) :=
  ⟨(goToSlide_stores_raw_index (initialSlider 2) 7).1,
   (goToSlide_stores_raw_index (initialSlider 2) 7).2 (by decide)⟩

/-- C3 counterexample: with `totalSlides = 0`, calling `nextSlide` is
not a no-op — the JS `% 0` is evaluated and sets `currentSlide` to
NaN — and likewise for `prevSlide`. -/
theorem zero_slides_nav_not_noop_cex :
    (nextSlide (initialSlider 0)).currentSlide = JSNum.nan ∧
    nextSlide (initialSlider 0) ≠ initialSlider 0 ∧
    (prevSlide (initialSlider 0)).currentSlide = JSNum.nan := by
  decide

/-- C3 amended: with `totalSlides = 0` the `init()` guard refuses to
bind any event handler or start autoplay (so no navigation is ever
dispatched in the running page); the navigation methods themselves are
not guarded: `nextSlide`/`prevSlide` evaluate `% 0` and store NaN,
`handleSwipe` below the threshold is a no-op, and `goToSlide` stores
the raw index. -/
theorem zero_slides_guarded_at_init (hasTrack : Bool) (s : SliderState)
    (h : s.totalSlides = 0) :
    sliderInitProceeds hasTrack s.totalSlides = false ∧
    (nextSlide s).currentSlide = JSNum.nan ∧
    (prevSlide s).currentSlide = JSNum.nan ∧
    (∀ a b : Int, |a - b| ≤ 50 →
      (handleSwipe s a b).1 = s ∧ (handleSwipe s a b).2 = []) ∧
    (∀ i : Int, (goToSlide s i).currentSlide = JSNum.int i) := by
  refine ⟨?_, ?_, ?_, ?_, fun i => rfl⟩
  · rw [h]; simp [sliderInitProceeds]
  · rw [nextSlide_currentSlide, h]
    cases s.currentSlide <;> simp [JSNum.add, JSNum.mod]
  · rw [prevSlide_currentSlide, h]
    cases s.currentSlide <;> simp [JSNum.sub, JSNum.add, JSNum.mod]
  · intro a b hab
    have hna : ¬ 50 < |a - b| := not_lt.mpr hab
    constructor <;> simp [handleSwipe, hna]

theorem zero_slides_guarded_at_init_witness :
    sliderInitProceeds true (initialSlider 0).totalSlides = false ∧
    (nextSlide (initialSlider 0)).currentSlide = JSNum.nan ∧
    (prevSlide (initialSlider 0)).currentSlide = JSNum.nan ∧
    (handleSwipe (initialSlider 0) 100 80).1 = initialSlider 0 :=
  ⟨(zero_slides_guarded_at_init true (initialSlider 0) rfl).1,
   (zero_slides_guarded_at_init true (initialSlider 0) rfl).2.1,
   (zero_slides_guarded_at_init true (initialSlider 0) rfl).2.2.1,
   ((zero_slides_guarded_at_init true (initialSlider 0) rfl).2.2.2.1 100 80
      (by decide)).1⟩

/-- C4: `handleSwipe(startX, endX)` with `diff = startX - endX`
dispatches exactly one `nextSlide` when `|diff| > 50` and `diff > 0`,
exactly one `prevSlide` when `|diff| > 50` and `diff < 0`, and no
navigation at all when `|diff| ≤ 50`. -/
theorem handleSwipe_dispatch (s : SliderState) (startX endX : Int) :
    (50 < |startX - endX| → 0 < startX - endX →
      handleSwipe s startX endX = (nextSlide s, [NavCall.nextCall])) ∧
    (50 < |startX - endX| → startX - endX < 0 →
      handleSwipe s startX endX = (prevSlide s, [NavCall.prevCall])) ∧
    (|startX - endX| ≤ 50 → handleSwipe s startX endX = (s, [])) := by
  refine ⟨?_, ?_, ?_⟩
  · intro h1 h2
    simp [handleSwipe, h1, h2]
  · intro h1 h2
    have h3 : ¬ 0 < startX - endX := by omega
    simp [handleSwipe, h1, h3]
  · intro h1
    have h2 : ¬ 50 < |startX - endX| := not_lt.mpr h1
    simp [handleSwipe, h2]

theorem handleSwipe_dispatch_witness :
    handleSwipe (initialSlider 3) 100 40 =
      (nextSlide (initialSlider 3), [NavCall.nextCall]) ∧
    handleSwipe (initialSlider 3) 40 100 =
      (prevSlide (initialSlider 3), [NavCall.prevCall]) ∧
    handleSwipe (initialSlider 3) 100 80 = (initialSlider 3, []) :=
  ⟨(handleSwipe_dispatch (initialSlider 3) 100 40).1 (by decide) (by decide),
   (handleSwipe_dispatch (initialSlider 3) 40 100).2.1 (by decide) (by decide),
   (handleSwipe_dispatch (initialSlider 3) 100 80).2.2 (by decide)⟩

/-- C9: `goToSlide(i)` changes only `currentSlide` and the two rendered
fields (track offset, active dot); `totalSlides` and the autoplay timer
handle are untouched, and the dispatch leaves the timer environment
unchanged — it neither cancels, restarts, nor re-arms autoplay. -/
theorem goToSlide_frame (s : SliderState) (w : TimerWorld) (i : Int) :
    (goToSlide s i).autoPlayInterval = s.autoPlayInterval ∧
    (goToSlide s i).totalSlides = s.totalSlides ∧
    (goToSlide s i).currentSlide = JSNum.int i ∧
    (goToSlide s i).trackOffset = JSNum.int (-i * 100) ∧
    (goToSlide s i).activeDot = JSNum.int i ∧
    sliderStep (s, w) (SliderOp.goTo i) = (goToSlide s i, w) :=
  ⟨rfl, rfl, rfl, rfl, rfl, rfl⟩

/-! ## Autoplay timer ownership -/

lemma handleSwipe_fst_autoPlay (s : SliderState) (a b : Int) :
    (handleSwipe s a b).1.autoPlayInterval = s.autoPlayInterval := by
  by_cases h1 : 50 < |a - b|
  · by_cases h2 : 0 < a - b
    · simp [handleSwipe, h1, h2, nextSlide, updateSlider, updateDots]
    · simp [handleSwipe, h1, h2, prevSlide, updateSlider, updateDots]
  · simp [handleSwipe, h1]

lemma sliderStep_timerInvariant (c : SliderState × TimerWorld) (op : SliderOp)
    (h : timerInvariant c) : timerInvariant (sliderStep c op) := by
  unfold timerInvariant at h ⊢
  cases op with
  | next => simpa [sliderStep, nextSlide, updateSlider, updateDots] using h
  | prev => simpa [sliderStep, prevSlide, updateSlider, updateDots] using h
  | goTo i => simpa [sliderStep, goToSlide, updateSlider, updateDots] using h
  | swipe a b => simpa [sliderStep, handleSwipe_fst_autoPlay] using h
  | start =>
    cases hop : c.1.autoPlayInterval with
    | none =>
      simp [hop] at h
      simp [sliderStep, startAutoPlay, stopAutoPlay, setIntervalW, hop, h]
    | some id =>
      simp [hop] at h
      simp [sliderStep, startAutoPlay, stopAutoPlay, setIntervalW,
        clearIntervalW, hop, h]
  | stop =>
    cases hop : c.1.autoPlayInterval with
    | none => simpa [sliderStep, stopAutoPlay, hop] using h
    | some id =>
      simp [hop] at h
      simp [sliderStep, stopAutoPlay, clearIntervalW, hop, h]

lemma sliderRun_timerInvariant (c : SliderState × TimerWorld)
    (h : timerInvariant c) (ops : List SliderOp) :
    timerInvariant (sliderRun c ops) := by
  induction ops generalizing c with
  | nil => exact h
  | cons op rest ih => exact ih (sliderStep c op) (sliderStep_timerInvariant c op h)

/-- C5: from the freshly constructed slider, after any finite sequence
of event dispatches (including consecutive `startAutoPlay` calls), the
armed timers are exactly those recorded in `autoPlayInterval` — hence at
most one autoplay timer is ever active, in every reachable state. -/
theorem startAutoplay_single_timer (n : Nat) (ops : List SliderOp) :
    (sliderRun (initialSlider n, TimerWorld.init) ops).2.active =
      (sliderRun (initialSlider n, TimerWorld.init) ops).1.autoPlayInterval.toList ∧
    (sliderRun (initialSlider n, TimerWorld.init) ops).2.active.length ≤ 1 := by
  have h : timerInvariant (sliderRun (initialSlider n, TimerWorld.init) ops) :=
    sliderRun_timerInvariant (initialSlider n, TimerWorld.init) rfl ops
  refine ⟨h, ?_⟩
  rw [h]
  cases (sliderRun (initialSlider n, TimerWorld.init) ops).1.autoPlayInterval <;> simp

/-! ## ScrollReveal one-shot behaviour -/

lemma scrollRevealCheckOne_mono (vh : Int) (e : RevealElem)
    (h : e.revealed = true) : (scrollRevealCheckOne vh e).revealed = true := by
  unfold scrollRevealCheckOne
  split <;> simp [h]

lemma scrollRevealCheckOne_fixed (vh : Int) (e : RevealElem)
    (h : e.revealed = true) : scrollRevealCheckOne vh e = e := by
  unfold scrollRevealCheckOne
  split
  · cases e
    simp_all
  · rfl

/-- C6: the `revealed` class is monotonic — an element revealed by one
`checkElements` pass stays revealed through every later pass — and a
pass over an already-revealed element changes nothing (the class add is
idempotent). -/
theorem scrollReveal_one_shot (vh vh2 : Int) (e : RevealElem) :
    (e.revealed = true → (scrollRevealCheckOne vh e).revealed = true) ∧
    ((scrollRevealCheckOne vh e).revealed = true →
      (scrollRevealCheckOne vh2 (scrollRevealCheckOne vh e)).revealed = true) ∧
    (e.revealed = true → scrollRevealCheckOne vh e = e) :=
  ⟨scrollRevealCheckOne_mono vh e,
   fun h => scrollRevealCheckOne_mono vh2 _ h,
   scrollRevealCheckOne_fixed vh e⟩

theorem scrollReveal_one_shot_witness :
    (scrollRevealCheckOne 100 { top := 0, revealed := true }).revealed = true ∧
    scrollRevealCheckOne 100 { top := 0, revealed := true } =
      { top := 0, revealed := true } :=
  ⟨(scrollReveal_one_shot 100 200 { top := 0, revealed := true }).1 rfl,
   (scrollReveal_one_shot 100 200 { top := 0, revealed := true }).2.2 rfl⟩

/-! ## ScrollAnimationController viewport predicate -/

lemma aosIsInViewport_iff (top wh : ℚ) :
    aosIsInViewport top wh = true ↔ 0 ≤ top ∧ top ≤ wh * (1 - aosThreshold) := by
  simp [aosIsInViewport]

/-- C7 counterexample: with `windowHeight = 10` the boundary element at
`top = 9 = 10 * (1 - 0.1)` passes the source predicate (non-strict `<=`)
and is animated by the pass, yet fails the spec's strict predicate. -/
theorem aos_strict_bound_cex :
    aosIsInViewport 9 10 = true ∧
    ¬ specViewportPred 9 10 ∧
    (aosCheckOne 10 { top := 9, animated := false }).2 = true := by
  have hb : aosIsInViewport (9 : ℚ) 10 = true := by
    rw [aosIsInViewport_iff]
    norm_num [aosThreshold]
  refine ⟨hb, ?_, ?_⟩
  · rintro ⟨h0, hlt⟩
    norm_num [aosThreshold] at hlt
  · simp [aosCheckOne, hb]

/-- C7 amended: a `checkElements` pass triggers `animateElement` for an
element exactly when `0 ≤ top` and `top ≤ windowHeight * (1 - 0.1)` —
the upper bound is non-strict, unlike the spec's strict wording — and
afterwards the element is animated exactly when it already was or the
trigger fired this pass. -/
theorem aos_trigger_iff (wh : ℚ) (e : AosElem) :
    ((aosCheckOne wh e).2 = true ↔ 0 ≤ e.top ∧ e.top ≤ wh * (1 - aosThreshold)) ∧
    ((aosCheckOne wh e).1.animated = true ↔
      e.animated = true ∨ (aosCheckOne wh e).2 = true) := by
  constructor
  · rw [← aosIsInViewport_iff]
    unfold aosCheckOne
    split <;> rename_i h <;> simp [h]
  · unfold aosCheckOne
    split <;> rename_i h <;> simp [h]

theorem aos_trigger_iff_witness :
    (aosCheckOne 10 { top := 9, animated := true }).2 = true :=
  (aos_trigger_iff 10 { top := 9, animated := true }).1.mpr
    ⟨by norm_num, by norm_num [aosThreshold]⟩

/-! ## IntersectionAnimationController fallback -/

lemma fallbackTimersFrom_length (i : Nat) (l : List IacElem) :
    (fallbackTimersFrom i l).length = l.length := by
  induction l generalizing i with
  | nil => rfl
  | cons e rest ih => simp [fallbackTimersFrom, ih]

lemma fallbackTimersFrom_get (l : List IacElem) : ∀ (i j : Nat)
    (h : j < (fallbackTimersFrom i l).length) (hl : j < l.length),
    (fallbackTimersFrom i l).get ⟨j, h⟩ =
      ((i + j) * 200, iacReveal (l.get ⟨j, hl⟩)) := by
  induction l with
  | nil =>
    intro i j h hl
    simp at hl
  | cons e rest ih =>
    intro i j h hl
    cases j with
    | zero => simp [fallbackTimersFrom]
    | succ k =>
      have hk : k < (fallbackTimersFrom (i + 1) rest).length := by
        have := fallbackTimersFrom_length (i + 1) rest
        have hl2 : k < rest.length := by simpa using Nat.lt_of_succ_lt_succ hl
        omega
      have hl2 : k < rest.length := by simpa using Nat.lt_of_succ_lt_succ hl
      have hrec := ih (i + 1) k hk hl2
      have hadd : i + 1 + k = i + (k + 1) := by omega
      rw [hadd] at hrec
      exact hrec

lemma fallbackAnimation_length (elems : List IacElem) :
    (fallbackAnimation elems).length = elems.length :=
  fallbackTimersFrom_length 0 elems

lemma fallbackAnimation_get (elems : List IacElem) (j : Nat)
    (h : j < (fallbackAnimation elems).length) :
    (fallbackAnimation elems).get ⟨j, h⟩ =
      (j * 200, iacReveal (elems.get ⟨j, (fallbackAnimation_length elems) ▸ h⟩)) := by
  have hl : j < elems.length := (fallbackAnimation_length elems) ▸ h
  have := fallbackTimersFrom_get elems 0 j h hl
  simpa using this

/-- C8: when the IntersectionObserver capability is unavailable,
`init()` takes the fallback path, which arms one timer per registered
element with delay `index * 200` ms whose callback reveals the element
(opacity 1, translateY 0); all elements are triggered unconditionally,
at strictly increasing delays spaced by exactly the 200 ms stagger. -/
theorem fallback_staggered_reveal (elems : List IacElem) :
    iacInit false elems = IacInit.fallback (fallbackAnimation elems) ∧
    (fallbackAnimation elems).length = elems.length ∧
    (∀ j (h : j < (fallbackAnimation elems).length),
      ((fallbackAnimation elems).get ⟨j, h⟩).1 = j * 200 ∧
      ((fallbackAnimation elems).get ⟨j, h⟩).2.opacity = 1 ∧
      ((fallbackAnimation elems).get ⟨j, h⟩).2.translateY = 0) ∧
    (∀ j k (hj : j < (fallbackAnimation elems).length)
        (hk : k < (fallbackAnimation elems).length), j < k →
      ((fallbackAnimation elems).get ⟨j, hj⟩).1 <
        ((fallbackAnimation elems).get ⟨k, hk⟩).1) ∧
    (∀ j (h : j + 1 < (fallbackAnimation elems).length),
      ((fallbackAnimation elems).get ⟨j + 1, h⟩).1 =
        ((fallbackAnimation elems).get ⟨j, Nat.lt_of_succ_lt h⟩).1 + 200) := by
  refine ⟨rfl, fallbackAnimation_length elems, ?_, ?_, ?_⟩
  · intro j h
    rw [fallbackAnimation_get elems j h]
    exact ⟨rfl, rfl, rfl⟩
  · intro j k hj hk hjk
    rw [fallbackAnimation_get elems j hj, fallbackAnimation_get elems k hk]
    show j * 200 < k * 200
    omega
  · intro j h
    rw [fallbackAnimation_get elems (j + 1) h,
      fallbackAnimation_get elems j (Nat.lt_of_succ_lt h)]
    show (j + 1) * 200 = j * 200 + 200
    omega

theorem fallback_staggered_reveal_witness :
    ((fallbackAnimation [{ opacity := 0, translateY := 30 },
        { opacity := 0, translateY := 30 }]).get ⟨0, by decide⟩).1 <
      ((fallbackAnimation [{ opacity := 0, translateY := 30 },
        { opacity := 0, translateY := 30 }]).get ⟨1, by decide⟩).1 ∧
    ((fallbackAnimation [{ opacity := 0, translateY := 30 },
        { opacity := 0, translateY := 30 }]).get ⟨1, by decide⟩).2.opacity = 1 :=
  ⟨(fallback_staggered_reveal
      [{ opacity := 0, translateY := 30 }, { opacity := 0, translateY := 30 }]).2.2.2.1
      0 1 (by decide) (by decide) (by decide),
   ((fallback_staggered_reveal
      [{ opacity := 0, translateY := 30 }, { opacity := 0, translateY := 30 }]).2.2.1
      1 (by decide)).2.1⟩

end RainbowTaxi
